import Mathlib

/-!
Shallow embedding of the traffic-signal coordination core of the
`trackv1.1` repository: the phase/observation state machine of
`intelligent_traffic_optimizer.py` and the pipeline glue of `app.py`
(line-crossing vehicle counting and the bounded drop-oldest queues).

Modelling conventions:
* Python `int` values (lane ids, coordinates, track ids) are `Int`;
  vehicle counts and green durations (always non-negative in the source)
  are `Nat`; wall-clock seconds (Python floats used only through
  comparison, `min`, `max` and subtraction) are `ℚ`.
* Python list indexing, including negative-index wraparound and
  `IndexError`, is modelled explicitly (`pyIndex`, `pyGet`, `pySet`);
  operations that can raise return `Except PyErr`.
-/

/-- Python runtime errors the modelled code can raise. -/
inductive PyErr where
  | indexError
deriving DecidableEq

/-- Python list-index resolution for a list of length `len`: a
non-negative index below `len` is used as-is, an index in `[-len, 0)`
wraps around from the end, anything else is an `IndexError` (`none`). -/
def pyIndex (len : Nat) (i : Int) : Option Nat :=
  if 0 ≤ i ∧ i < (len : Int) then some i.toNat
  else if -(len : Int) ≤ i ∧ i < 0 then some (i + len).toNat
  else none

/-- `xs[i]` with Python indexing semantics. -/
def pyGet (xs : List α) (i : Int) : Except PyErr α :=
  match (pyIndex xs.length i).bind xs.get? with
  | some v => Except.ok v
  | none => Except.error PyErr.indexError

/-- `xs[i] = v` with Python indexing semantics. -/
def pySet (xs : List α) (i : Int) (v : α) : Except PyErr (List α) :=
  match pyIndex xs.length i with
  | some n => Except.ok (xs.set n v)
  | none => Except.error PyErr.indexError

/-- Signal states produced by the system (strings in the Python source). -/
inductive SignalState where
  | GREEN
  | YELLOW
  | RED
  | OBSERVATION
deriving DecidableEq

/-- `self.yellow_time = 3` in `IntelligentTrafficOptimizer.__init__`;
never mutated afterwards. -/
def yellow_time : ℚ := 3

/-- `self.observation_duration = 30` in
`IntelligentTrafficOptimizer.__init__`; never mutated afterwards. -/
def observation_duration : ℚ := 30

/-- The mutable state of `IntelligentTrafficOptimizer` that the modelled
operations read and write. -/
structure OptState where
  current_cycle_timings : List Nat
  phase_elapsed_times : List ℚ
  cycle_number : Nat
  observation_enabled : Bool
  lane_observation_times : List ℚ
  observation_vehicle_counts : List Nat
  lanes_ready : List Bool
deriving DecidableEq

/-- The state established by `IntelligentTrafficOptimizer.__init__`. -/
def initState : OptState :=
  { current_cycle_timings := [30, 22, 0, 0]
    phase_elapsed_times := [0, 0, 0, 0]
    cycle_number := 0
    observation_enabled := true
    lane_observation_times := [0, 0, 0, 0]
    observation_vehicle_counts := [0, 0, 0, 0]
    lanes_ready := [false, false, false, false] }

/-- All per-lane vectors have length 4 — true of `initState` and
preserved by every modelled operation. -/
def OptState.wf (s : OptState) : Prop :=
  s.current_cycle_timings.length = 4 ∧ s.phase_elapsed_times.length = 4 ∧
  s.lane_observation_times.length = 4 ∧ s.observation_vehicle_counts.length = 4 ∧
  s.lanes_ready.length = 4

instance (s : OptState) : Decidable s.wf := by
  unfold OptState.wf
  infer_instance

/-- `IntelligentTrafficOptimizer.get_signal_state` (optimizer level,
`intelligent_traffic_optimizer.py` lines 196–227).  `len(self.phases)`
is always 4 (the phases list is created once and never resized). -/
def IntelligentTrafficOptimizer.get_signal_state (s : OptState) (lane_id : Int) :
    Except PyErr SignalState :=
  if 4 ≤ lane_id then Except.ok SignalState.RED
  else do
    let green_duration ←
      if lane_id < (s.current_cycle_timings.length : Int) then
        pyGet s.current_cycle_timings lane_id
      else pure 0
    let elapsed_time ← pyGet s.phase_elapsed_times lane_id
    if green_duration = 0 then pure SignalState.RED
    else if elapsed_time < (green_duration : ℚ) then pure SignalState.GREEN
    else if elapsed_time < (green_duration : ℚ) + yellow_time then pure SignalState.YELLOW
    else pure SignalState.RED

/-- `VehicleDetector.get_signal_state` (`app.py` lines 165–179): during
observation mode it returns `OBSERVATION` without consulting the timing
math; any exception from the optimizer is also swallowed into
`OBSERVATION` by the `try/except`. -/
def VehicleDetector.get_signal_state (s : OptState) (lane_id : Int) : SignalState :=
  if s.observation_enabled then SignalState.OBSERVATION
  else
    match IntelligentTrafficOptimizer.get_signal_state s lane_id with
    | Except.ok st => st
    | Except.error _ => SignalState.OBSERVATION

/-- `IntelligentTrafficOptimizer.get_green_time`
(`intelligent_traffic_optimizer.py` lines 229–247). -/
def IntelligentTrafficOptimizer.get_green_time (s : OptState) (lane_id : Int) :
    Except PyErr ℚ :=
  if (s.current_cycle_timings.length : Int) ≤ lane_id then Except.ok 0
  else do
    let green_duration ← pyGet s.current_cycle_timings lane_id
    let elapsed_time ← pyGet s.phase_elapsed_times lane_id
    if elapsed_time < (green_duration : ℚ) then
      pure (max 0 ((green_duration : ℚ) - elapsed_time))
    else pure 0

/-- `IntelligentTrafficOptimizer.set_cycle_timing`
(`intelligent_traffic_optimizer.py` lines 249–261): guarded on the
argument having length 4; otherwise nothing at all happens. -/
def IntelligentTrafficOptimizer.set_cycle_timing (s : OptState)
    (cycle_timings : List Nat) : OptState :=
  if cycle_timings.length = 4 then
    { s with current_cycle_timings := cycle_timings
             phase_elapsed_times := [0, 0, 0, 0]
             cycle_number := s.cycle_number + 1 }
  else s

/-- `IntelligentTrafficOptimizer.update_phase_elapsed_time`
(`intelligent_traffic_optimizer.py` lines 191–194): plain assignment of
the supplied value into the slot, guarded by
`phase_id < len(self.phase_elapsed_times)`. -/
def IntelligentTrafficOptimizer.update_phase_elapsed_time (s : OptState)
    (phase_id : Int) (elapsed_time : ℚ) : Except PyErr OptState :=
  if phase_id < (s.phase_elapsed_times.length : Int) then do
    let ts ← pySet s.phase_elapsed_times phase_id elapsed_time
    pure { s with phase_elapsed_times := ts }
  else pure s

/-- The per-lane duration bucket inlined in the loop body of
`IntelligentTrafficOptimizer.predict_next_cycle_timings`
(`intelligent_traffic_optimizer.py` lines 279–288), lifted out verbatim. -/
def predict_duration (vehicle_count : Nat) : Nat :=
  if vehicle_count = 0 then 0
  else if vehicle_count < 5 then 15
  else if vehicle_count < 10 then 25
  else if vehicle_count < 15 then 35
  else 55

/-- `IntelligentTrafficOptimizer.predict_next_cycle_timings`
(`intelligent_traffic_optimizer.py` lines 263–292).  The Python dict
argument with its `.get(lane_id, 0)` default is modelled as a total
function from lane id to count. -/
def IntelligentTrafficOptimizer.predict_next_cycle_timings
    (lane_metrics_dict : Nat → Nat) : List Nat :=
  (List.range 4).map fun lane_id => predict_duration (lane_metrics_dict lane_id)

/-- `IntelligentTrafficOptimizer.update_observation_time`
(`intelligent_traffic_optimizer.py` lines 294–314). -/
def IntelligentTrafficOptimizer.update_observation_time (s : OptState)
    (lane_id : Int) (elapsed_seconds : ℚ) : Except PyErr OptState :=
  if lane_id < 4 then do
    let ts ← pySet s.lane_observation_times lane_id
      (min elapsed_seconds observation_duration)
    let s1 : OptState := { s with lane_observation_times := ts }
    let ready ← pyGet s1.lanes_ready lane_id
    if observation_duration ≤ elapsed_seconds ∧ ready = false then do
      let rs ← pySet s1.lanes_ready lane_id true
      let s2 : OptState := { s1 with lanes_ready := rs }
      if s2.lanes_ready.all (fun b => b) then
        pure { s2 with observation_enabled := false }
      else pure s2
    else pure s1
  else pure s

/-- `IntelligentTrafficOptimizer.record_observation_vehicle_count`
(`intelligent_traffic_optimizer.py` lines 316–325). -/
def IntelligentTrafficOptimizer.record_observation_vehicle_count (s : OptState)
    (lane_id : Int) (vehicle_count : Nat) : Except PyErr OptState :=
  if lane_id < 4 then do
    let old ← pyGet s.observation_vehicle_counts lane_id
    let cs ← pySet s.observation_vehicle_counts lane_id (max old vehicle_count)
    pure { s with observation_vehicle_counts := cs }
  else pure s

/-- `update_observation_time` specialised to a valid lane (`Fin 4`),
written without the error monad; `update_obs_ok` below proves it agrees
with the faithful embedding on well-formed states. -/
def tick4 (s : OptState) (lane : Fin 4) (e : ℚ) : OptState :=
  if observation_duration ≤ e ∧ s.lanes_ready.getD lane false = false then
    if (s.lanes_ready.set lane true).all (fun b => b) then
      { s with lane_observation_times :=
                 s.lane_observation_times.set lane (min e observation_duration)
               lanes_ready := s.lanes_ready.set lane true
               observation_enabled := false }
    else
      { s with lane_observation_times :=
                 s.lane_observation_times.set lane (min e observation_duration)
               lanes_ready := s.lanes_ready.set lane true }
  else
    { s with lane_observation_times :=
               s.lane_observation_times.set lane (min e observation_duration) }

/-- Folding a whole sequence of observation-time updates (valid lanes)
from the initial state. -/
def obsRun (us : List (Fin 4 × ℚ)) : OptState :=
  us.foldl (fun s u => tick4 s u.1 u.2) initState

/-- A tracked detection as produced by the tracker in
`VehicleDetector.process_frame` (`app.py` line 340): integer box corners
and a track id. -/
structure TrackedBox where
  x1 : Int
  y1 : Int
  x2 : Int
  y2 : Int
  id : Int
deriving DecidableEq

/-- A detection line `[x_start, y, x_end, y]` (`app.py` lines 150–153). -/
structure LimitLine where
  x1 : Int
  y1 : Int
  x2 : Int
  y2 : Int
deriving DecidableEq

/-- `cx, cy = x1 + w // 2, y1 + h // 2` (`app.py` line 350); Python `//`
is floor division. -/
def TrackedBox.center (t : TrackedBox) : Int × Int :=
  (t.x1 + (t.x2 - t.x1).fdiv 2, t.y1 + (t.y2 - t.y1).fdiv 2)

/-- The geometric test of `app.py` lines 354–355: center x strictly
between the line ends and center y strictly within ±15 px of the line's
y-coordinate. -/
def in_band (limit : LimitLine) (t : TrackedBox) : Prop :=
  limit.x1 < t.center.1 ∧ t.center.1 < limit.x2 ∧
  limit.y1 - 15 < t.center.2 ∧ t.center.2 < limit.y1 + 15

instance (limit : LimitLine) (t : TrackedBox) : Decidable (in_band limit t) := by
  unfold in_band
  infer_instance

/-- One iteration of the inner `for limit in self.limit_lines` loop of
`VehicleDetector.process_frame` (`app.py` lines 353–357): an uncounted
id inside the band is appended to `total_count`. -/
def cross_update (t : TrackedBox) (total_count : List Int) (limit : LimitLine) :
    List Int :=
  if in_band limit t ∧ t.id ∉ total_count then total_count ++ [t.id]
  else total_count

/-- Processing of one tracked vehicle against all detection lines
(`app.py` lines 339–359, counting effect only). -/
def track_vehicle (limit_lines : List LimitLine) (total_count : List Int)
    (t : TrackedBox) : List Int :=
  limit_lines.foldl (cross_update t) total_count

/-- Counting effect of one frame's `for result in tracked_objects` loop. -/
def track_frame (limit_lines : List LimitLine) (total_count : List Int)
    (tracked_objects : List TrackedBox) : List Int :=
  tracked_objects.foldl (track_vehicle limit_lines) total_count

/-- `queue.Queue(maxsize=2)` per lane for frames (`app.py` line 66). -/
def frame_queue_maxsize : Nat := 2

/-- `queue.Queue(maxsize=5)` per lane for metrics (`app.py` line 67). -/
def data_queue_maxsize : Nat := 5

/-- The non-blocking push pattern of `video_processing_thread`
(`app.py` lines 618–625 and 630–637): `put(block=False)`, and on
`queue.Full` a `get_nowait()` of the oldest entry followed by the put.
Queues are FIFO lists with the oldest item at the head. -/
def queue_push (maxsize : Nat) (q : List α) (item : α) : List α :=
  if q.length < maxsize then q ++ [item]
  else q.drop 1 ++ [item]

/-- Repeated pushes of a list of items, oldest first. -/
def queue_push_all (maxsize : Nat) (q : List α) (items : List α) : List α :=
  items.foldl (queue_push maxsize) q

/-- Modelled from the spec (§4.4 `signalState`), for comparison with the
source-derived `VehicleDetector.get_signal_state`: if observation mode
is on, OBSERVATION; else RED when the lane's green duration is 0, GREEN
while `e < g`, YELLOW while `g ≤ e < g + 3`, RED afterwards. -/
def specSignalState (obs : Bool) (g : Nat) (e : ℚ) : SignalState :=
  if obs then SignalState.OBSERVATION
  else if g = 0 then SignalState.RED
  else if e < (g : ℚ) then SignalState.GREEN
  else if e < (g : ℚ) + 3 then SignalState.YELLOW
  else SignalState.RED

/-- Controlling-mode state with the seed timings `[30, 22, 0, 0]` and
every lane's elapsed time 10 s (first worked example of the spec). -/
def exElapsed10 : OptState :=
  { initState with observation_enabled := false
                   phase_elapsed_times := [10, 10, 10, 10] }

/-- As `exElapsed10` but with every lane's elapsed time 31 s. -/
def exElapsed31 : OptState :=
  { initState with observation_enabled := false
                   phase_elapsed_times := [31, 31, 31, 31] }

instance [DecidableEq ε] [DecidableEq α] : DecidableEq (Except ε α) := fun x y =>
  match x, y with
  | Except.ok a, Except.ok b =>
      if h : a = b then Decidable.isTrue (by rw [h]) else Decidable.isFalse (by simp [h])
  | Except.ok _, Except.error _ => Decidable.isFalse (by simp)
  | Except.error _, Except.ok _ => Decidable.isFalse (by simp)
  | Except.error a, Except.error b =>
      if h : a = b then Decidable.isTrue (by rw [h]) else Decidable.isFalse (by simp [h])

lemma except_bind_ok (a : α) (f : α → Except ε β) :
    (Except.ok a >>= f : Except ε β) = f a := rfl

lemma except_bind_error (e : ε) (f : α → Except ε β) :
    (Except.error e >>= f : Except ε β) = Except.error e := rfl

lemma except_pure (a : α) : (pure a : Except ε α) = Except.ok a := rfl

lemma pyIndex_natCast (len i : Nat) (h : i < len) : pyIndex len (i : Int) = some i := by
  unfold pyIndex
  have h0 : (0 : Int) ≤ (i : Int) := Int.ofNat_nonneg i
  have h1 : (i : Int) < (len : Int) := by exact_mod_cast h
  rw [if_pos ⟨h0, h1⟩, Int.toNat_natCast]

lemma pyGet_eq_ok (xs : List α) (d : α) (i : Nat) (h : i < xs.length) :
    pyGet xs (i : Int) = Except.ok (xs.getD i d) := by
  unfold pyGet
  rw [pyIndex_natCast _ _ h, Option.some_bind, List.get?_eq_getElem?,
    List.getElem?_eq_getElem h, List.getD_eq_getElem _ _ h]

lemma pySet_eq_ok (xs : List α) (i : Nat) (h : i < xs.length) (v : α) :
    pySet xs (i : Int) v = Except.ok (xs.set i v) := by
  unfold pySet
  rw [pyIndex_natCast _ _ h]

/-- Negative indices in `[-len, 0)` behave exactly like `i + len`. -/
lemma pyIndex_neg (len : Nat) (i : Int) (h0 : -(len : Int) ≤ i) (h1 : i < 0) :
    pyIndex len i = pyIndex len (i + len) := by
  unfold pyIndex
  rw [if_neg (by omega), if_pos ⟨h0, h1⟩, if_pos (by omega)]

lemma pyGet_neg (xs : List α) (i : Int) (h0 : -(xs.length : Int) ≤ i) (h1 : i < 0) :
    pyGet xs i = pyGet xs (i + xs.length) := by
  unfold pyGet
  rw [pyIndex_neg _ _ h0 h1]

lemma pySet_neg (xs : List α) (i : Int) (h0 : -(xs.length : Int) ≤ i) (h1 : i < 0) (v : α) :
    pySet xs i v = pySet xs (i + xs.length) v := by
  unfold pySet
  rw [pyIndex_neg _ _ h0 h1]

lemma pyIndex_none (len : Nat) (i : Int) (h : i < -(len : Int)) : pyIndex len i = none := by
  unfold pyIndex
  rw [if_neg (by omega), if_neg (by omega)]

lemma pyGet_none (xs : List α) (i : Int) (h : i < -(xs.length : Int)) :
    pyGet xs i = Except.error PyErr.indexError := by
  unfold pyGet
  rw [pyIndex_none _ _ h, Option.none_bind]

lemma pySet_none (xs : List α) (i : Int) (h : i < -(xs.length : Int)) (v : α) :
    pySet xs i v = Except.error PyErr.indexError := by
  unfold pySet
  rw [pyIndex_none _ _ h]

/-- On a well-formed state and a valid lane, the optimizer-level signal
query returns normally with the pure GREEN/YELLOW/RED timing formula. -/
lemma opt_signal_state_valid (s : OptState) (h : s.wf) (i : Fin 4) :
    IntelligentTrafficOptimizer.get_signal_state s ((i : Nat) : Int) =
      Except.ok
        (if s.current_cycle_timings.getD i 0 = 0 then SignalState.RED
         else if s.phase_elapsed_times.getD i 0 < (s.current_cycle_timings.getD i 0 : ℚ) then
           SignalState.GREEN
         else if s.phase_elapsed_times.getD i 0 <
             (s.current_cycle_timings.getD i 0 : ℚ) + 3 then SignalState.YELLOW
         else SignalState.RED) := by
  obtain ⟨hT, hE, -, -, -⟩ := h
  have hi := i.isLt
  unfold IntelligentTrafficOptimizer.get_signal_state
  rw [if_neg (by omega), if_pos (by rw [hT]; exact_mod_cast hi)]
  simp only [pyGet_eq_ok _ 0 _ (show (i : Nat) < s.current_cycle_timings.length by omega),
    pyGet_eq_ok _ 0 _ (show (i : Nat) < s.phase_elapsed_times.length by omega),
    except_bind_ok]
  unfold yellow_time
  split_ifs <;> rfl

/-- C1: for every lane 0..3 the derived signal state is the pure
function of (cycle timing vector, that lane's elapsed time, observation
flag) given by the spec: OBSERVATION when observing, else RED when
`g = 0`, GREEN while `e < g`, YELLOW while `g ≤ e < g + 3`, RED after;
in particular with timings `[30,22,0,0]` in controlling mode, elapsed 10
everywhere gives `[GREEN, GREEN, RED, RED]` and elapsed 31 everywhere
gives `[YELLOW, RED, RED, RED]`. -/
theorem C1_signal_state_pure :
    (∀ (s : OptState), s.wf → ∀ i : Fin 4,
      VehicleDetector.get_signal_state s ((i : Nat) : Int) =
        specSignalState s.observation_enabled (s.current_cycle_timings.getD i 0)
          (s.phase_elapsed_times.getD i 0)) ∧
    ((List.range 4).map fun l => VehicleDetector.get_signal_state exElapsed10 (l : Int)) =
      [SignalState.GREEN, SignalState.GREEN, SignalState.RED, SignalState.RED] ∧
    ((List.range 4).map fun l => VehicleDetector.get_signal_state exElapsed31 (l : Int)) =
      [SignalState.YELLOW, SignalState.RED, SignalState.RED, SignalState.RED] := by
  refine ⟨fun s h i => ?_, by decide, ?_⟩
  · unfold VehicleDetector.get_signal_state specSignalState
    cases hobs : s.observation_enabled with
    | true => rw [if_pos rfl, if_pos rfl]
    | false =>
        rw [if_neg (by simp), if_neg (by simp), opt_signal_state_valid s h i]
  · simp [VehicleDetector.get_signal_state, IntelligentTrafficOptimizer.get_signal_state,
      exElapsed31, initState, pyGet, pyIndex, yellow_time, List.range_succ,
      except_bind_ok, except_pure]
    norm_num

/-- Witness for C1 at the concrete controlling-mode state with elapsed
time 10 and lane 0. -/
theorem C1_signal_state_pure_witness :
    VehicleDetector.get_signal_state exElapsed10 (((0 : Fin 4) : Nat) : Int) =
      specSignalState exElapsed10.observation_enabled
        (exElapsed10.current_cycle_timings.getD (0 : Fin 4) 0)
        (exElapsed10.phase_elapsed_times.getD (0 : Fin 4) 0) :=
  C1_signal_state_pure.1 exElapsed10 (by decide) 0

/-- C3: the cycle-timing predictor maps each lane's count independently
through the fixed bucket table 0↦0, 1–4↦15, 5–9↦25, 10–14↦35, ≥15↦55,
and `predict([0,4,9,20]) = [0,15,25,55]`. -/
theorem C3_predictor_buckets :
    (∀ counts : Nat → Nat,
      IntelligentTrafficOptimizer.predict_next_cycle_timings counts =
        [predict_duration (counts 0), predict_duration (counts 1),
         predict_duration (counts 2), predict_duration (counts 3)]) ∧
    predict_duration 0 = 0 ∧
    (∀ c : Nat, 1 ≤ c → c ≤ 4 → predict_duration c = 15) ∧
    (∀ c : Nat, 5 ≤ c → c ≤ 9 → predict_duration c = 25) ∧
    (∀ c : Nat, 10 ≤ c → c ≤ 14 → predict_duration c = 35) ∧
    (∀ c : Nat, 15 ≤ c → predict_duration c = 55) ∧
    IntelligentTrafficOptimizer.predict_next_cycle_timings
      (fun i => [0, 4, 9, 20].getD i 0) = [0, 15, 25, 55] := by
  refine ⟨fun counts => rfl, rfl, fun c h1 h2 => ?_, fun c h1 h2 => ?_,
    fun c h1 h2 => ?_, fun c h1 => ?_, by decide⟩ <;>
    · unfold predict_duration
      split_ifs <;> omega

/-- Witness for C3: the bucket table applied at counts 3, 7, 12, 20. -/
theorem C3_predictor_buckets_witness :
    predict_duration 3 = 15 ∧ predict_duration 7 = 25 ∧
    predict_duration 12 = 35 ∧ predict_duration 20 = 55 :=
  ⟨C3_predictor_buckets.2.2.1 3 (by decide) (by decide),
   C3_predictor_buckets.2.2.2.1 7 (by decide) (by decide),
   C3_predictor_buckets.2.2.2.2.1 12 (by decide) (by decide),
   C3_predictor_buckets.2.2.2.2.2.1 20 (by decide)⟩

/-- C6: installing a next cycle with a length-4 durations list replaces
the whole cycle timing vector, resets all four elapsed counters to 0 and
increments the cycle counter by exactly 1, leaving everything else
unchanged. -/
theorem C6_install_cycle (s : OptState) (ts : List Nat) (h : ts.length = 4) :
    IntelligentTrafficOptimizer.set_cycle_timing s ts =
      { s with current_cycle_timings := ts
               phase_elapsed_times := [0, 0, 0, 0]
               cycle_number := s.cycle_number + 1 } := by
  unfold IntelligentTrafficOptimizer.set_cycle_timing
  rw [if_pos h]

/-- Witness for C6 at the initial state and the durations `[15,25,35,55]`. -/
theorem C6_install_cycle_witness :
    IntelligentTrafficOptimizer.set_cycle_timing initState [15, 25, 35, 55] =
      { initState with current_cycle_timings := [15, 25, 35, 55]
                       phase_elapsed_times := [0, 0, 0, 0]
                       cycle_number := initState.cycle_number + 1 } :=
  C6_install_cycle initState [15, 25, 35, 55] rfl

/-- C10: calling `set_cycle_timing` with a list whose length is not 4 is
a silent no-op — the whole state, including the timing vector, elapsed
counters and cycle counter, is returned unchanged and no error is
signalled. -/
theorem C10_install_wrong_length_noop (s : OptState) (ts : List Nat)
    (h : ts.length ≠ 4) :
    IntelligentTrafficOptimizer.set_cycle_timing s ts = s := by
  unfold IntelligentTrafficOptimizer.set_cycle_timing
  rw [if_neg h]

/-- Witness for C10 at the initial state with a length-3 list. -/
theorem C10_install_wrong_length_noop_witness :
    IntelligentTrafficOptimizer.set_cycle_timing initState [7, 8, 9] = initState :=
  C10_install_wrong_length_noop initState [7, 8, 9] (by decide)

/-- On a well-formed state and a valid lane, the faithful embedding of
`update_observation_time` returns normally with the `tick4` result. -/
lemma update_obs_ok (s : OptState) (h : s.wf) (i : Fin 4) (e : ℚ) :
    IntelligentTrafficOptimizer.update_observation_time s ((i : Nat) : Int) e =
      Except.ok (tick4 s i e) := by
  obtain ⟨-, -, hO, -, hR⟩ := h
  have hi := i.isLt
  unfold IntelligentTrafficOptimizer.update_observation_time tick4
  rw [if_pos (show ((i : Nat) : Int) < 4 by exact_mod_cast hi)]
  simp only [pySet_eq_ok _ _ (show (i : Nat) < s.lane_observation_times.length by omega),
    except_bind_ok,
    pyGet_eq_ok _ false _ (show (i : Nat) < s.lanes_ready.length by omega),
    except_pure]
  split_ifs <;>
    simp_all [pySet_eq_ok _ _ (show (i : Nat) < s.lanes_ready.length by omega),
      except_bind_ok, except_pure]

lemma getD_false_all_false (l : List Bool) (i : Nat) (h : i < l.length)
    (hf : l.getD i false = false) : l.all (fun b => b) = false := by
  rw [List.getD_eq_getElem _ _ h] at hf
  have hm : l[i] ∈ l := List.getElem_mem h
  cases hall : l.all fun b => b
  · rfl
  · rw [List.all_eq_true] at hall
    have := hall _ hm
    rw [hf] at this
    exact absurd this (by simp)

/-- Whole-run invariant of the observation barrier: the per-lane vectors
keep length 4 and the mode flag is the negation of "all lanes ready". -/
def obsInv (s : OptState) : Prop :=
  s.wf ∧ s.observation_enabled = !(s.lanes_ready.all fun b => b)

lemma tick4_wf (s : OptState) (h : s.wf) (i : Fin 4) (e : ℚ) : (tick4 s i e).wf := by
  obtain ⟨h1, h2, h3, h4, h5⟩ := h
  unfold tick4
  split_ifs <;> simp_all [OptState.wf]

lemma tick4_inv (s : OptState) (h : obsInv s) (i : Fin 4) (e : ℚ) :
    obsInv (tick4 s i e) := by
  obtain ⟨hwf, hmode⟩ := h
  refine ⟨tick4_wf s hwf i e, ?_⟩
  have hR := hwf.2.2.2.2
  have hi := i.isLt
  unfold tick4
  split_ifs with h1 h2
  · simp [h2]
  · have hfalse : s.lanes_ready.all (fun b => b) = false :=
      getD_false_all_false _ _ (by omega) h1.2
    simp only [hfalse, Bool.not_false] at hmode
    simpa [h2] using hmode
  · simpa using hmode

lemma tick4_mode_mono (s : OptState) (i : Fin 4) (e : ℚ)
    (h : s.observation_enabled = false) : (tick4 s i e).observation_enabled = false := by
  unfold tick4
  split_ifs <;> simp [h]

lemma tick4_ready_frozen (s : OptState) (i : Fin 4) (e : ℚ)
    (h : s.lanes_ready.getD i false = true) :
    (tick4 s i e).lanes_ready = s.lanes_ready ∧
    (tick4 s i e).observation_enabled = s.observation_enabled := by
  have hc : ¬(observation_duration ≤ e ∧ s.lanes_ready.getD (i : Nat) false = false) := by
    rintro ⟨-, hf⟩
    rw [h] at hf
    simp at hf
  unfold tick4
  rw [if_neg hc]
  exact ⟨rfl, rfl⟩

lemma obsRun_aux (us : List (Fin 4 × ℚ)) :
    ∀ s : OptState, obsInv s → obsInv (us.foldl (fun s u => tick4 s u.1 u.2) s) := by
  induction us with
  | nil => exact fun s h => h
  | cons u us ih => exact fun s h => ih _ (tick4_inv s h u.1 u.2)

lemma obsRun_inv (us : List (Fin 4 × ℚ)) : obsInv (obsRun us) :=
  obsRun_aux us initState ⟨by decide, by decide⟩

lemma obsRun_mode_mono_aux (vs : List (Fin 4 × ℚ)) :
    ∀ s : OptState, s.observation_enabled = false →
      (vs.foldl (fun s u => tick4 s u.1 u.2) s).observation_enabled = false := by
  induction vs with
  | nil => exact fun s h => h
  | cons u vs ih => exact fun s h => ih _ (tick4_mode_mono s u.1 u.2 h)

/-- C2: from the initial state, across every sequence of
observation-time updates the mode flag is exactly "not all lanes ready"
(so with three lanes ready and one not, the mode is still observation,
and the flip happens exactly when the last lane becomes ready); once the
mode is controlling, no further updates ever flip it back; an update for
an already-ready lane leaves the readiness vector and the mode flag
unchanged.  The first conjunct ties `tick4` to the faithful embedding of
`update_observation_time`. -/
theorem C2_observation_barrier :
    (∀ (s : OptState), s.wf → ∀ (i : Fin 4) (e : ℚ),
      IntelligentTrafficOptimizer.update_observation_time s ((i : Nat) : Int) e =
        Except.ok (tick4 s i e)) ∧
    (∀ us : List (Fin 4 × ℚ),
      (obsRun us).observation_enabled = !((obsRun us).lanes_ready.all fun b => b)) ∧
    (∀ us vs : List (Fin 4 × ℚ), (obsRun us).observation_enabled = false →
      (obsRun (us ++ vs)).observation_enabled = false) ∧
    (∀ (s : OptState) (i : Fin 4) (e : ℚ), s.lanes_ready.getD i false = true →
      (tick4 s i e).lanes_ready = s.lanes_ready ∧
      (tick4 s i e).observation_enabled = s.observation_enabled) ∧
    (obsRun [(0, 30), (1, 30), (2, 30)]).lanes_ready = [true, true, true, false] ∧
    (obsRun [(0, 30), (1, 30), (2, 30)]).observation_enabled = true ∧
    (obsRun [(0, 30), (1, 30), (2, 30), (3, 30)]).observation_enabled = false := by
  refine ⟨fun s h i e => update_obs_ok s h i e, fun us => (obsRun_inv us).2,
    fun us vs h => ?_, fun s i e h => tick4_ready_frozen s i e h,
    by decide, by decide, by decide⟩
  unfold obsRun at h ⊢
  rw [List.foldl_append]
  exact obsRun_mode_mono_aux vs _ h

/-- Witness for C2: after all four lanes became ready the mode stays
controlling across a further update. -/
theorem C2_observation_barrier_witness :
    (obsRun ([(0, 30), (1, 30), (2, 30), (3, 30)] ++ [(0, 10)])).observation_enabled =
      false :=
  C2_observation_barrier.2.2.1 [(0, 30), (1, 30), (2, 30), (3, 30)] [(0, 10)] (by decide)

/-- C9: for every lane 0..3 and every non-negative elapsed-seconds
input, the observation-time update succeeds and stores exactly
`min(input, 30)` for that lane, which never exceeds the 30-second
window. -/
theorem C9_observation_time_capped :
    ∀ (s : OptState), s.wf → ∀ (i : Fin 4) (e : ℚ), 0 ≤ e →
      IntelligentTrafficOptimizer.update_observation_time s ((i : Nat) : Int) e =
        Except.ok (tick4 s i e) ∧
      (tick4 s i e).lane_observation_times.getD i 0 = min e 30 ∧
      min e 30 ≤ 30 := by
  intro s h i e he
  refine ⟨update_obs_ok s h i e, ?_, min_le_right e 30⟩
  have hO := h.2.2.1
  have hi := i.isLt
  unfold tick4
  split_ifs <;>
  · show (s.lane_observation_times.set _ _).getD _ 0 = min e 30
    rw [List.getD_eq_getElem _ _ (by rw [List.length_set]; omega),
      List.getElem_set_self]
    rfl

/-- Witness for C9 at the initial state, lane 2 and a 45-second input. -/
theorem C9_observation_time_capped_witness :
    IntelligentTrafficOptimizer.update_observation_time initState (((2 : Fin 4) : Nat) : Int) 45 =
      Except.ok (tick4 initState 2 45) ∧
    (tick4 initState 2 45).lane_observation_times.getD (2 : Fin 4) 0 = min 45 30 ∧
    (min 45 30 : ℚ) ≤ 30 :=
  C9_observation_time_capped initState (by decide) 2 45 (by decide)

/-- A controlling-mode state whose lane-0 elapsed time is already 10 s. -/
def decState : OptState := { initState with phase_elapsed_times := [10, 0, 0, 0] }

/-- C4 counterexample: the elapsed-time update is a plain assignment, so
calling it with a value (5) smaller than the stored one (10) makes the
stored elapsed value decrease — refuting "after the call is greater than
or equal to its value before the call" for a call that is not a cycle
install. -/
theorem C4_counterexample :
    decState.phase_elapsed_times.getD 0 0 = 10 ∧
    IntelligentTrafficOptimizer.update_phase_elapsed_time decState 0 5 =
      Except.ok { decState with phase_elapsed_times := [5, 0, 0, 0] } ∧
    ¬ ((10 : ℚ) ≤ 5) := by decide

/-- C4 amended: for every lane 0..3 the elapsed-time update stores the
supplied value verbatim; consequently the stored value does not decrease
exactly when the supplied value is at least the previously stored one
(as with the per-lane frame counters between cycle resets), and a
smaller input decreases it. -/
theorem C4_elapsed_assignment :
    ∀ (s : OptState), s.wf → ∀ (i : Fin 4) (e : ℚ),
      IntelligentTrafficOptimizer.update_phase_elapsed_time s ((i : Nat) : Int) e =
        Except.ok { s with phase_elapsed_times := s.phase_elapsed_times.set i e } ∧
      (s.phase_elapsed_times.set (i : Nat) e).getD i 0 = e ∧
      (s.phase_elapsed_times.getD i 0 ≤ e →
        s.phase_elapsed_times.getD i 0 ≤ (s.phase_elapsed_times.set (i : Nat) e).getD i 0) := by
  intro s h i e
  have hE := h.2.1
  have hi := i.isLt
  have hstore : (s.phase_elapsed_times.set (i : Nat) e).getD (i : Nat) 0 = e := by
    rw [List.getD_eq_getElem _ _ (by rw [List.length_set]; omega), List.getElem_set_self]
  refine ⟨?_, hstore, fun hle => by rw [hstore]; exact hle⟩
  unfold IntelligentTrafficOptimizer.update_phase_elapsed_time
  rw [if_pos (by rw [hE]; exact_mod_cast hi)]
  simp only [pySet_eq_ok _ _ (show (i : Nat) < s.phase_elapsed_times.length by omega),
    except_bind_ok, except_pure]

/-- Witness for C4's amended claim at the initial state, lane 1, value 7. -/
theorem C4_elapsed_assignment_witness :
    IntelligentTrafficOptimizer.update_phase_elapsed_time initState
        (((1 : Fin 4) : Nat) : Int) 7 =
      Except.ok { initState with
        phase_elapsed_times := initState.phase_elapsed_times.set (1 : Fin 4) 7 } ∧
    (initState.phase_elapsed_times.set ((1 : Fin 4) : Nat) 7).getD (1 : Fin 4) 0 = 7 ∧
    (initState.phase_elapsed_times.getD (1 : Fin 4) 0 ≤ 7 →
      initState.phase_elapsed_times.getD (1 : Fin 4) 0 ≤
        (initState.phase_elapsed_times.set ((1 : Fin 4) : Nat) 7).getD (1 : Fin 4) 0) :=
  C4_elapsed_assignment initState (by decide) 1 7

lemma gss_wrap (s : OptState) (h : s.wf) (i : Int) (h0 : -4 ≤ i) (h1 : i < 0) :
    IntelligentTrafficOptimizer.get_signal_state s i =
      IntelligentTrafficOptimizer.get_signal_state s (i + 4) := by
  obtain ⟨hT, hE, -, -, -⟩ := h
  have e1 : pyGet s.current_cycle_timings i = pyGet s.current_cycle_timings (i + 4) := by
    have := pyGet_neg s.current_cycle_timings i (by rw [hT]; omega) h1
    rw [hT] at this
    simpa using this
  have e2 : pyGet s.phase_elapsed_times i = pyGet s.phase_elapsed_times (i + 4) := by
    have := pyGet_neg s.phase_elapsed_times i (by rw [hE]; omega) h1
    rw [hE] at this
    simpa using this
  unfold IntelligentTrafficOptimizer.get_signal_state
  rw [if_neg (show ¬(4 ≤ i) by omega), if_neg (show ¬(4 ≤ i + 4) by omega),
    if_pos (show i < (s.current_cycle_timings.length : Int) by rw [hT]; omega),
    if_pos (show i + 4 < (s.current_cycle_timings.length : Int) by rw [hT]; omega),
    e1, e2]

lemma ggt_wrap (s : OptState) (h : s.wf) (i : Int) (h0 : -4 ≤ i) (h1 : i < 0) :
    IntelligentTrafficOptimizer.get_green_time s i =
      IntelligentTrafficOptimizer.get_green_time s (i + 4) := by
  obtain ⟨hT, hE, -, -, -⟩ := h
  have e1 : pyGet s.current_cycle_timings i = pyGet s.current_cycle_timings (i + 4) := by
    have := pyGet_neg s.current_cycle_timings i (by rw [hT]; omega) h1
    rw [hT] at this
    simpa using this
  have e2 : pyGet s.phase_elapsed_times i = pyGet s.phase_elapsed_times (i + 4) := by
    have := pyGet_neg s.phase_elapsed_times i (by rw [hE]; omega) h1
    rw [hE] at this
    simpa using this
  unfold IntelligentTrafficOptimizer.get_green_time
  rw [if_neg (show ¬((s.current_cycle_timings.length : Int) ≤ i) by rw [hT]; omega),
    if_neg (show ¬((s.current_cycle_timings.length : Int) ≤ i + 4) by rw [hT]; omega),
    e1, e2]

lemma uot_wrap (s : OptState) (h : s.wf) (i : Int) (h0 : -4 ≤ i) (h1 : i < 0) (e : ℚ) :
    IntelligentTrafficOptimizer.update_observation_time s i e =
      IntelligentTrafficOptimizer.update_observation_time s (i + 4) e := by
  obtain ⟨-, -, hO, -, hR⟩ := h
  have eset : pySet s.lane_observation_times i (min e observation_duration) =
      pySet s.lane_observation_times (i + 4) (min e observation_duration) := by
    have := pySet_neg s.lane_observation_times i (by rw [hO]; omega) h1
      (min e observation_duration)
    rw [hO] at this
    simpa using this
  have eget : pyGet s.lanes_ready i = pyGet s.lanes_ready (i + 4) := by
    have := pyGet_neg s.lanes_ready i (by rw [hR]; omega) h1
    rw [hR] at this
    simpa using this
  have eset2 : pySet s.lanes_ready i true = pySet s.lanes_ready (i + 4) true := by
    have := pySet_neg s.lanes_ready i (by rw [hR]; omega) h1 true
    rw [hR] at this
    simpa using this
  unfold IntelligentTrafficOptimizer.update_observation_time
  rw [if_pos (show i < 4 by omega), if_pos (show i + 4 < 4 by omega)]
  dsimp only
  rw [eset, eget, eset2]

lemma rovc_wrap (s : OptState) (h : s.wf) (i : Int) (h0 : -4 ≤ i) (h1 : i < 0) (c : Nat) :
    IntelligentTrafficOptimizer.record_observation_vehicle_count s i c =
      IntelligentTrafficOptimizer.record_observation_vehicle_count s (i + 4) c := by
  obtain ⟨-, -, -, hC, -⟩ := h
  have eget : pyGet s.observation_vehicle_counts i =
      pyGet s.observation_vehicle_counts (i + 4) := by
    have := pyGet_neg s.observation_vehicle_counts i (by rw [hC]; omega) h1
    rw [hC] at this
    simpa using this
  have eset : ∀ old : Nat, pySet s.observation_vehicle_counts i (max old c) =
      pySet s.observation_vehicle_counts (i + 4) (max old c) := by
    intro old
    have := pySet_neg s.observation_vehicle_counts i (by rw [hC]; omega) h1 (max old c)
    rw [hC] at this
    simpa using this
  unfold IntelligentTrafficOptimizer.record_observation_vehicle_count
  rw [if_pos (show i < 4 by omega), if_pos (show i + 4 < 4 by omega)]
  rw [eget]
  congr 1
  funext old
  rw [eset old]

lemma upet_wrap (s : OptState) (h : s.wf) (i : Int) (h0 : -4 ≤ i) (h1 : i < 0) (e : ℚ) :
    IntelligentTrafficOptimizer.update_phase_elapsed_time s i e =
      IntelligentTrafficOptimizer.update_phase_elapsed_time s (i + 4) e := by
  obtain ⟨-, hE, -, -, -⟩ := h
  have eset : pySet s.phase_elapsed_times i e = pySet s.phase_elapsed_times (i + 4) e := by
    have := pySet_neg s.phase_elapsed_times i (by rw [hE]; omega) h1 e
    rw [hE] at this
    simpa using this
  unfold IntelligentTrafficOptimizer.update_phase_elapsed_time
  rw [if_pos (show i < (s.phase_elapsed_times.length : Int) by rw [hE]; omega),
    if_pos (show i + 4 < (s.phase_elapsed_times.length : Int) by rw [hE]; omega),
    eset]

lemma high_lane_defaults (s : OptState) (h : s.wf) (i : Int) (h4 : 4 ≤ i) :
    IntelligentTrafficOptimizer.get_signal_state s i = Except.ok SignalState.RED ∧
    IntelligentTrafficOptimizer.get_green_time s i = Except.ok 0 ∧
    (∀ e : ℚ, IntelligentTrafficOptimizer.update_observation_time s i e = Except.ok s) ∧
    (∀ c : Nat, IntelligentTrafficOptimizer.record_observation_vehicle_count s i c =
      Except.ok s) ∧
    (∀ e : ℚ, IntelligentTrafficOptimizer.update_phase_elapsed_time s i e = Except.ok s) := by
  obtain ⟨hT, hE, -, -, -⟩ := h
  refine ⟨?_, ?_, fun e => ?_, fun c => ?_, fun e => ?_⟩
  · unfold IntelligentTrafficOptimizer.get_signal_state
    rw [if_pos h4]
  · unfold IntelligentTrafficOptimizer.get_green_time
    rw [if_pos (show (s.current_cycle_timings.length : Int) ≤ i by rw [hT]; omega)]
  · unfold IntelligentTrafficOptimizer.update_observation_time
    rw [if_neg (show ¬(i < 4) by omega)]
    rfl
  · unfold IntelligentTrafficOptimizer.record_observation_vehicle_count
    rw [if_neg (show ¬(i < 4) by omega)]
    rfl
  · unfold IntelligentTrafficOptimizer.update_phase_elapsed_time
    rw [if_neg (show ¬(i < (s.phase_elapsed_times.length : Int)) by rw [hE]; omega)]
    rfl

/-- C5 counterexample: invalid lane ids are not rejected with an error
signal.  `update_observation_time` at lane `-1` returns normally and
silently wraps around, writing lane 3's observation slot and readiness
flag, and `get_signal_state` at lane `5` returns the normal result RED. -/
theorem C5_counterexample :
    IntelligentTrafficOptimizer.update_observation_time initState (-1) 30 =
      Except.ok { initState with lane_observation_times := [0, 0, 0, 30]
                                 lanes_ready := [false, false, false, true] } ∧
    IntelligentTrafficOptimizer.get_signal_state initState 5 =
      Except.ok SignalState.RED := by decide

/-- C5 amended: the lane-indexed operations do not reject out-of-range
ids.  Ids ≥ 4 yield a normal default (RED from the signal query, 0 from
the green-time query) or leave the state unchanged in the update
operations; ids in −4..−1 behave exactly like the id plus 4, silently
wrapping around to another lane's slot. -/
theorem C5_lane_id_behavior :
    (∀ (s : OptState), s.wf → ∀ i : Int, 4 ≤ i →
      IntelligentTrafficOptimizer.get_signal_state s i = Except.ok SignalState.RED ∧
      IntelligentTrafficOptimizer.get_green_time s i = Except.ok 0 ∧
      (∀ e : ℚ, IntelligentTrafficOptimizer.update_observation_time s i e = Except.ok s) ∧
      (∀ c : Nat, IntelligentTrafficOptimizer.record_observation_vehicle_count s i c =
        Except.ok s) ∧
      (∀ e : ℚ, IntelligentTrafficOptimizer.update_phase_elapsed_time s i e = Except.ok s)) ∧
    (∀ (s : OptState), s.wf → ∀ i : Int, -4 ≤ i → i < 0 →
      IntelligentTrafficOptimizer.get_signal_state s i =
        IntelligentTrafficOptimizer.get_signal_state s (i + 4) ∧
      IntelligentTrafficOptimizer.get_green_time s i =
        IntelligentTrafficOptimizer.get_green_time s (i + 4) ∧
      (∀ e : ℚ, IntelligentTrafficOptimizer.update_observation_time s i e =
        IntelligentTrafficOptimizer.update_observation_time s (i + 4) e) ∧
      (∀ c : Nat, IntelligentTrafficOptimizer.record_observation_vehicle_count s i c =
        IntelligentTrafficOptimizer.record_observation_vehicle_count s (i + 4) c) ∧
      (∀ e : ℚ, IntelligentTrafficOptimizer.update_phase_elapsed_time s i e =
        IntelligentTrafficOptimizer.update_phase_elapsed_time s (i + 4) e)) :=
  ⟨fun s h i h4 => high_lane_defaults s h i h4,
   fun s h i h0 h1 =>
    ⟨gss_wrap s h i h0 h1, ggt_wrap s h i h0 h1, fun e => uot_wrap s h i h0 h1 e,
     fun c => rovc_wrap s h i h0 h1 c, fun e => upet_wrap s h i h0 h1 e⟩⟩

/-- Witness for C5's amended claim: lane 7 gets the default RED, and
lane −1 behaves like lane 3 for the signal query, at the initial state. -/
theorem C5_lane_id_behavior_witness :
    IntelligentTrafficOptimizer.get_signal_state initState 7 = Except.ok SignalState.RED ∧
    IntelligentTrafficOptimizer.get_signal_state initState (-1) =
      IntelligentTrafficOptimizer.get_signal_state initState (-1 + 4) :=
  ⟨(C5_lane_id_behavior.1 initState (by decide) 7 (by decide)).1,
   (C5_lane_id_behavior.2 initState (by decide) (-1) (by decide) (by decide)).1⟩

lemma cross_update_mem (t : TrackedBox) (c : List Int) (l : LimitLine) (h : t.id ∈ c) :
    cross_update t c l = c := by
  unfold cross_update
  rw [if_neg]
  rintro ⟨-, hn⟩
  exact hn h

lemma cross_update_not_band (t : TrackedBox) (c : List Int) (l : LimitLine)
    (h : ¬ in_band l t) : cross_update t c l = c := by
  unfold cross_update
  rw [if_neg]
  rintro ⟨hb, -⟩
  exact h hb

lemma track_vehicle_mem (lines : List LimitLine) (c : List Int) (t : TrackedBox)
    (h : t.id ∈ c) : track_vehicle lines c t = c := by
  induction lines with
  | nil => rfl
  | cons l ls ih =>
      unfold track_vehicle at ih ⊢
      rw [List.foldl_cons, cross_update_mem t c l h]
      exact ih

lemma track_vehicle_new (lines : List LimitLine) (c : List Int) (t : TrackedBox)
    (hnot : t.id ∉ c) (hband : ∃ l ∈ lines, in_band l t) :
    track_vehicle lines c t = c ++ [t.id] := by
  induction lines with
  | nil => simp at hband
  | cons l ls ih =>
      unfold track_vehicle at ih ⊢
      rw [List.foldl_cons]
      by_cases hb : in_band l t
      · rw [show cross_update t c l = c ++ [t.id] from by
          unfold cross_update; rw [if_pos ⟨hb, hnot⟩]]
        exact track_vehicle_mem ls _ t (by simp)
      · rw [cross_update_not_band t c l hb]
        obtain ⟨l', hl', hb'⟩ := hband
        rcases List.mem_cons.mp hl' with rfl | hl'
        · exact absurd hb' hb
        · exact ih ⟨l', hl', hb'⟩

lemma cross_update_sublist (t : TrackedBox) (c : List Int) (l : LimitLine) :
    c <+: cross_update t c l := by
  unfold cross_update
  split_ifs
  · exact ⟨[t.id], rfl⟩
  · exact List.prefix_refl c

lemma track_vehicle_grows (lines : List LimitLine) (c : List Int) (t : TrackedBox) :
    c <+: track_vehicle lines c t := by
  induction lines generalizing c with
  | nil => exact List.prefix_refl c
  | cons l ls ih =>
      unfold track_vehicle at ih ⊢
      rw [List.foldl_cons]
      exact (cross_update_sublist t c l).trans (ih _)

lemma track_frame_grows (lines : List LimitLine) (c : List Int)
    (ts : List TrackedBox) : c <+: track_frame lines c ts := by
  induction ts generalizing c with
  | nil => exact List.prefix_refl c
  | cons t ts ih =>
      unfold track_frame at ih ⊢
      rw [List.foldl_cons]
      exact (track_vehicle_grows lines c t).trans (ih _)

lemma cross_update_nodup (t : TrackedBox) (c : List Int) (l : LimitLine)
    (h : c.Nodup) : (cross_update t c l).Nodup := by
  unfold cross_update
  split_ifs with hc
  · simp [List.nodup_append, h, hc.2]
  · exact h

lemma track_vehicle_nodup (lines : List LimitLine) (c : List Int) (t : TrackedBox)
    (h : c.Nodup) : (track_vehicle lines c t).Nodup := by
  induction lines generalizing c with
  | nil => exact h
  | cons l ls ih =>
      unfold track_vehicle at ih ⊢
      rw [List.foldl_cons]
      exact ih _ (cross_update_nodup t c l h)

lemma track_frame_nodup (lines : List LimitLine) (c : List Int) (ts : List TrackedBox)
    (h : c.Nodup) : (track_frame lines c ts).Nodup := by
  induction ts generalizing c with
  | nil => exact h
  | cons t ts ih =>
      unfold track_frame at ih ⊢
      rw [List.foldl_cons]
      exact ih _ (track_vehicle_nodup lines c t h)

/-- C7: in the line-crossing counter, an uncounted id whose center lies
in the band of any one of the lane's crossing lines is appended exactly
once (the count grows by exactly 1); an id already in the counted set
never increments the count again; the counted set only ever grows (the
old set is a prefix of the new one); starting from the empty set every
id is credited at most once across any frame sequence. -/
theorem C7_crossing_idempotent :
    (∀ (lines : List LimitLine) (c : List Int) (t : TrackedBox), t.id ∉ c →
      (∃ l ∈ lines, in_band l t) →
      track_vehicle lines c t = c ++ [t.id] ∧
      (track_vehicle lines c t).length = c.length + 1) ∧
    (∀ (lines : List LimitLine) (c : List Int) (t : TrackedBox), t.id ∈ c →
      track_vehicle lines c t = c) ∧
    (∀ (lines : List LimitLine) (c : List Int) (ts : List TrackedBox),
      c <+: track_frame lines c ts) ∧
    (∀ (lines : List LimitLine) (c : List Int) (ts : List TrackedBox), c.Nodup →
      (track_frame lines c ts).Nodup) ∧
    (∀ (lines : List LimitLine) (ts : List TrackedBox) (x : Int),
      (track_frame lines [] ts).count x ≤ 1) := by
  refine ⟨fun lines c t hnot hband => ?_, track_vehicle_mem, track_frame_grows,
    track_frame_nodup, fun lines ts x =>
      List.nodup_iff_count_le_one.mp (track_frame_nodup lines [] ts List.nodup_nil) x⟩
  have h := track_vehicle_new lines c t hnot hband
  rw [h]
  simp

/-- Witness for C7: a fresh id centred inside the single crossing line's
band is appended once. -/
theorem C7_crossing_idempotent_witness :
    track_vehicle [⟨50, 100, 300, 100⟩] [] ⟨100, 90, 140, 110, 17⟩ = [] ++ [(17 : Int)] ∧
    (track_vehicle [⟨50, 100, 300, 100⟩] [] ⟨100, 90, 140, 110, 17⟩).length =
      ([] : List Int).length + 1 :=
  C7_crossing_idempotent.1 [⟨50, 100, 300, 100⟩] [] ⟨100, 90, 140, 110, 17⟩
    (by decide) ⟨⟨50, 100, 300, 100⟩, by decide, by decide⟩

lemma queue_push_length (cap : Nat) (q : List α) (x : α) (hc : 0 < cap)
    (h : q.length ≤ cap) : (queue_push cap q x).length ≤ cap := by
  unfold queue_push
  split_ifs with hlt
  · simp
    omega
  · simp
    omega

lemma queue_push_all_drop (cap : Nat) (hc : 0 < cap) :
    ∀ (items q : List α), q.length ≤ cap →
      queue_push_all cap q items = (q ++ items).drop (q.length + items.length - cap) := by
  intro items
  induction items with
  | nil =>
      intro q hq
      have h0 : q.length + ([] : List α).length - cap = 0 := by simp; omega
      rw [h0]
      simp [queue_push_all]
  | cons x items ih =>
      intro q hq
      unfold queue_push_all at ih ⊢
      rw [List.foldl_cons]
      by_cases hlt : q.length < cap
      · rw [show queue_push cap q x = q ++ [x] from by unfold queue_push; rw [if_pos hlt]]
        rw [ih (q ++ [x]) (by simp; omega)]
        have hn : (q ++ [x]).length + items.length - cap =
            q.length + (x :: items).length - cap := by simp; omega
        rw [hn, List.append_assoc]
        rfl
      · have hqc : q.length = cap := by omega
        rw [show queue_push cap q x = q.drop 1 ++ [x] from by
          unfold queue_push; rw [if_neg hlt]]
        rw [ih (q.drop 1 ++ [x]) (by simp; omega)]
        cases q with
        | nil => simp at hqc; omega
        | cons a q' =>
            have h1 : ((a :: q').drop 1 ++ [x]).length + items.length - cap =
                items.length := by simp at hqc ⊢; omega
            have h2 : (a :: q').length + (x :: items).length - cap =
                items.length + 1 := by simp at hqc ⊢; omega
            rw [h1, h2]
            simp [List.drop_succ_cons, List.append_assoc]

/-- C8: the drop-oldest push never grows a queue beyond its capacity; a
push onto a full queue evicts the oldest (head) item and then inserts
the new one at the tail; pushing `N + 2` items into an empty capacity-N
queue leaves exactly the `N` most recently pushed items; the two
concrete capacities are 2 (frames) and 5 (metrics). -/
theorem C8_bounded_queue :
    (∀ (α : Type) (cap : Nat) (q : List α) (x : α), 0 < cap → q.length ≤ cap →
      (queue_push cap q x).length ≤ cap) ∧
    (∀ (α : Type) (cap : Nat) (q : List α) (x : α), q.length = cap →
      queue_push cap q x = q.drop 1 ++ [x]) ∧
    (∀ (α : Type) (cap : Nat) (items : List α), 0 < cap → items.length = cap + 2 →
      queue_push_all cap [] items = items.drop 2) ∧
    queue_push_all frame_queue_maxsize ([] : List Nat) [1, 2, 3, 4] = [3, 4] ∧
    queue_push_all data_queue_maxsize ([] : List Nat) [1, 2, 3, 4, 5, 6, 7] =
      [3, 4, 5, 6, 7] := by
  refine ⟨fun α cap q x hc h => queue_push_length cap q x hc h,
    fun α cap q x h => ?_, fun α cap items hc hl => ?_, by decide, by decide⟩
  · unfold queue_push
    rw [if_neg (by omega)]
  · have h2 : ([] : List α).length + items.length - cap = 2 := by simp; omega
    rw [queue_push_all_drop cap hc items [] (by simp), h2, List.nil_append]

/-- Witness for C8: pushing 4 items into an empty capacity-2 queue
keeps the last 2. -/
theorem C8_bounded_queue_witness :
    queue_push_all 2 ([] : List Nat) [9, 8, 7, 6] = [9, 8, 7, 6].drop 2 :=
  C8_bounded_queue.2.2.1 Nat 2 [9, 8, 7, 6] (by decide) (by decide)
